import Mathlib

/-!
Verification development for `video_converter.py`: a shallow embedding of
`create_video_from_images`, which converts a folder of images into a video,
optionally rotating each frame 90 degrees counterclockwise.

The external collaborators (the filesystem glob and the image decoder of the
multimedia library) are modelled as an explicit environment `Env`; the
observable behaviour of one invocation (console messages, writer creation,
frame writes, writer release, or an unhandled fault) is modelled as a trace
of events in a `RunResult`.
-/

namespace VideoConverter

/-- One pixel: three colour channels (the decoder returns 3-channel rasters). -/
abbrev Pix := Nat × Nat × Nat

/-- A decoded raster: a list of pixel rows.  `height` is the number of rows,
`width` the length of the first row (`img.shape` in the source). -/
structure Image where
  pixels : List (List Pix)
deriving DecidableEq

def Image.height (img : Image) : Nat := img.pixels.length

def Image.width (img : Image) : Nat := (img.pixels.headD []).length

/-- A raster is well formed when it is nonempty and rectangular, as every
raster produced by the decoder is. -/
def Image.wf (img : Image) : Prop :=
  0 < img.height ∧ 0 < img.width ∧ ∀ row ∈ img.pixels, row.length = img.width

/-- Model of `cv2.rotate(img, cv2.ROTATE_90_COUNTERCLOCKWISE)`: row `i` of the
result is column `width - 1 - i` of the input, read top to bottom. -/
def cvRotate90CCW (img : Image) : Image :=
  ⟨(List.range img.width).map fun i =>
      img.pixels.map fun row => row.getD (img.width - 1 - i) (0, 0, 0)⟩

/-- One component of a natural-sort key: a maximal run of non-digit
characters, or a maximal run of digits read as a number. -/
inductive NatKey where
  | str : String → NatKey
  | num : Nat → NatKey
deriving DecidableEq

/-- Extend a reversed token list by one character: digits extend (or start) a
numeric token, other characters extend (or start) a string token. -/
def pushKeyChar (acc : List NatKey) (c : Char) : List NatKey :=
  if c.isDigit then
    match acc with
    | NatKey.num n :: rest => NatKey.num (n * 10 + (c.toNat - 48)) :: rest
    | _ => NatKey.num (c.toNat - 48) :: acc
  else
    match acc with
    | NatKey.str s :: rest => NatKey.str (s.push c) :: rest
    | _ => NatKey.str (String.singleton c) :: acc

/-- The natural-sort key of a string: its maximal digit runs become numbers,
everything else stays text. -/
def naturalKey (s : String) : List NatKey :=
  (s.data.foldl pushKeyChar []).reverse

/-- Lexicographic comparison of character sequences by code point, as Python
compares strings. -/
def charListLT : List Char → List Char → Bool
  | [], [] => false
  | [], _ :: _ => true
  | _ :: _, [] => false
  | a :: as, b :: bs => if a < b then true else if b < a then false else charListLT as bs

/-- Strict comparison of key components: numbers compare by value, text
lexicographically; a number sorts before text (as in the library's padding of
keys that start with a digit). -/
def keyLT : NatKey → NatKey → Bool
  | NatKey.num a, NatKey.num b => a < b
  | NatKey.str a, NatKey.str b => charListLT a.data b.data
  | NatKey.num _, NatKey.str _ => true
  | NatKey.str _, NatKey.num _ => false

/-- Lexicographic (non-strict) comparison of whole keys. -/
def keyListLe : List NatKey → List NatKey → Bool
  | [], _ => true
  | _ :: _, [] => false
  | a :: as, b :: bs =>
    if keyLT a b then true else if keyLT b a then false else keyListLe as bs

/-- `a` precedes (or ties with) `b` in natural order. -/
def natLe (a b : String) : Bool := keyListLe (naturalKey a) (naturalKey b)

/-- Model of `natsort.natsorted`: a stable sort by natural-order keys. -/
def natsorted (l : List String) : List String :=
  List.insertionSort (fun a b => natLe a b = true) l

/-- Model of `os.path.join` for the two-argument uses in the source: the
second component wins when absolute, otherwise one separator is inserted
unless the first component is empty or already ends in one. -/
def osPathJoin (a b : String) : String :=
  if b.data.headD ' ' = '/' then b
  else if a = "" ∨ a.data.getLastD ' ' = '/' then a ++ b
  else a ++ "/" ++ b

/-- Observable events of one invocation, in order of occurrence.
`warn p` stands for the console line `Warning: Could not read image p`;
`progress k total` stands for the periodic `Processing: k/total images`
line (its percentage text is a pure function of `k` and `total`). -/
inductive Event where
  | print : String → Event
  | warn : String → Event
  | createWriter : String → String → Nat → Nat → Nat → Event
  | writeFrame : Image → Event
  | progress : Nat → Nat → Event
  | release : Event
deriving DecidableEq

/-- The one unhandled fault of the operation: when the first file in sorted
order fails to decode, the decoder returns a null raster and the subsequent
rotation / shape extraction raises. -/
inductive Fault where
  | decodeFirstFailed : String → Fault
deriving DecidableEq

/-- The outcome of one invocation: the events that occurred, and the fault
that aborted the run, when one did. -/
structure RunResult where
  events : List Event
  fault : Option Fault
deriving DecidableEq

/-- The external collaborators: `glob pat` lists the files matching the
joined pattern (in filesystem order), `decode p` is `cv2.imread(p)`, with
`none` for a file that cannot be read. -/
structure Env where
  glob : String → List String
  decode : String → Option Image

/-- The per-file loop of the source (lines 45-59): decode, on failure warn
and continue, otherwise rotate when enabled, write the frame, and print
progress when the 1-based index is a multiple of 10 or is the total. -/
def frameLoop (env : Env) (rotate : Bool) (total : Nat) : Nat → List String → List Event
  | _, [] => []
  | i, p :: rest =>
    match env.decode p with
    | none => Event.warn p :: frameLoop env rotate total (i + 1) rest
    | some img =>
      Event.writeFrame (if rotate then cvRotate90CCW img else img) ::
        if (i + 1) % 10 = 0 ∨ i + 1 = total then
          Event.progress (i + 1) total :: frameLoop env rotate total (i + 1) rest
        else frameLoop env rotate total (i + 1) rest

/-- Shallow embedding of `create_video_from_images`.  It mirrors the source
line by line: glob, early return when nothing matches, natural sort, decode
of the first file for the dimensions (a failure there faults the run),
writer creation, the per-file loop, release, completion message. -/
def create_video_from_images (env : Env) (image_folder output_video_path : String)
    (fps : Nat := 30) (img_pattern : String := "*.png") (rotate : Bool := true) : RunResult :=
  let image_paths := env.glob (osPathJoin image_folder img_pattern)
  if image_paths = [] then
    ⟨[Event.print ("No images found in " ++ image_folder ++ " matching pattern " ++ img_pattern)],
      none⟩
  else
    let sorted := natsorted image_paths
    match env.decode (sorted.headD "") with
    | none => ⟨[], some (Fault.decodeFirstFailed (sorted.headD ""))⟩
    | some first0 =>
      let first_image := if rotate then cvRotate90CCW first0 else first0
      ⟨Event.createWriter output_video_path "mp4v" fps first_image.width first_image.height ::
          frameLoop env rotate sorted.length 0 sorted ++
          [Event.release, Event.print ("Video saved to " ++ output_video_path)],
        none⟩

/-- The frames written to the output stream during a run, in order. -/
def writtenFrames (events : List Event) : List Image :=
  events.filterMap fun e =>
    match e with
    | Event.writeFrame img => some img
    | _ => none

/-- The progress messages of a run, in order. -/
def progressEvents (events : List Event) : List Event :=
  events.filter fun e =>
    match e with
    | Event.progress _ _ => true
    | _ => false

/-! ### General lemmas about the embedding -/

theorem Image.cvRotate90CCW_height (img : Image) :
    (cvRotate90CCW img).height = img.width := by
  simp [cvRotate90CCW, Image.height]

theorem Image.cvRotate90CCW_width (img : Image) (h : 0 < img.width) :
    (cvRotate90CCW img).width = img.height := by
  obtain ⟨n, hn⟩ : ∃ n, img.width = n + 1 := ⟨img.width - 1, by omega⟩
  unfold cvRotate90CCW
  rw [hn]
  simp [Image.width, Image.height, List.range_succ_eq_map]

theorem natsorted_perm (l : List String) : (natsorted l).Perm l :=
  List.perm_insertionSort _ l

theorem mem_natsorted {p : String} {l : List String} : p ∈ natsorted l ↔ p ∈ l :=
  (natsorted_perm l).mem_iff

theorem natsorted_eq_nil {l : List String} : natsorted l = [] ↔ l = [] := by
  constructor
  · intro h
    have hl := (natsorted_perm l).length_eq
    rw [h] at hl
    exact List.length_eq_zero.mp hl.symm
  · intro h
    subst h
    rfl

theorem length_filterMap_eq_countP {α β : Type} (f : α → Option β) (l : List α) :
    (l.filterMap f).length = l.countP fun a => (f a).isSome := by
  induction l with
  | nil => rfl
  | cons a l ih => cases h : f a <;> simp [List.filterMap_cons, h, List.countP_cons, ih]

theorem writtenFrames_append (l₁ l₂ : List Event) :
    writtenFrames (l₁ ++ l₂) = writtenFrames l₁ ++ writtenFrames l₂ := by
  simp [writtenFrames]

theorem progressEvents_append (l₁ l₂ : List Event) :
    progressEvents (l₁ ++ l₂) = progressEvents l₁ ++ progressEvents l₂ := by
  simp [progressEvents]

theorem writtenFrames_warn_cons (p : String) (es : List Event) :
    writtenFrames (Event.warn p :: es) = writtenFrames es := rfl

theorem writtenFrames_write_cons (img : Image) (es : List Event) :
    writtenFrames (Event.writeFrame img :: es) = img :: writtenFrames es := rfl

theorem writtenFrames_progress_cons (k t : Nat) (es : List Event) :
    writtenFrames (Event.progress k t :: es) = writtenFrames es := rfl

theorem writtenFrames_createWriter_cons (p c : String) (f w h : Nat) (es : List Event) :
    writtenFrames (Event.createWriter p c f w h :: es) = writtenFrames es := rfl

theorem writtenFrames_release_cons (es : List Event) :
    writtenFrames (Event.release :: es) = writtenFrames es := rfl

theorem writtenFrames_print_cons (s : String) (es : List Event) :
    writtenFrames (Event.print s :: es) = writtenFrames es := rfl

theorem progressEvents_warn_cons (p : String) (es : List Event) :
    progressEvents (Event.warn p :: es) = progressEvents es := rfl

theorem progressEvents_write_cons (img : Image) (es : List Event) :
    progressEvents (Event.writeFrame img :: es) = progressEvents es := rfl

theorem progressEvents_progress_cons (k t : Nat) (es : List Event) :
    progressEvents (Event.progress k t :: es) = Event.progress k t :: progressEvents es := rfl

theorem progressEvents_createWriter_cons (p c : String) (f w h : Nat) (es : List Event) :
    progressEvents (Event.createWriter p c f w h :: es) = progressEvents es := rfl

theorem progressEvents_release_cons (es : List Event) :
    progressEvents (Event.release :: es) = progressEvents es := rfl

theorem progressEvents_print_cons (s : String) (es : List Event) :
    progressEvents (Event.print s :: es) = progressEvents es := rfl

theorem writtenFrames_frameLoop (env : Env) (rot : Bool) (total : Nat) (ps : List String) :
    ∀ i : Nat,
      writtenFrames (frameLoop env rot total i ps) =
        ps.filterMap fun p => (env.decode p).map fun img =>
          if rot then cvRotate90CCW img else img := by
  induction ps with
  | nil => intro i; rfl
  | cons p rest ih =>
    intro i
    cases h : env.decode p with
    | none =>
      simp only [frameLoop, h, writtenFrames_warn_cons, ih (i + 1), List.filterMap_cons,
        Option.map_none']
    | some img =>
      by_cases hc : (i + 1) % 10 = 0 ∨ i + 1 = total
      · simp only [frameLoop, h, if_pos hc, writtenFrames_write_cons,
          writtenFrames_progress_cons, ih (i + 1), List.filterMap_cons, Option.map_some']
      · simp only [frameLoop, h, if_neg hc, writtenFrames_write_cons,
          ih (i + 1), List.filterMap_cons, Option.map_some']

theorem warn_mem_frameLoop (env : Env) (rot : Bool) (total : Nat) (q : String)
    (ps : List String) :
    ∀ i : Nat, q ∈ ps → env.decode q = none →
      Event.warn q ∈ frameLoop env rot total i ps := by
  induction ps with
  | nil =>
    intro i hq _
    cases hq
  | cons p rest ih =>
    intro i hq hd
    rcases List.mem_cons.mp hq with rfl | hq'
    · simp [frameLoop, hd]
    · cases h : env.decode p with
      | none =>
        simp only [frameLoop, h]
        exact List.mem_cons_of_mem _ (ih (i + 1) hq' hd)
      | some img =>
        by_cases hc : (i + 1) % 10 = 0 ∨ i + 1 = total
        · simp only [frameLoop, h, if_pos hc]
          exact List.mem_cons_of_mem _ (List.mem_cons_of_mem _ (ih (i + 1) hq' hd))
        · simp only [frameLoop, h, if_neg hc]
          exact List.mem_cons_of_mem _ (ih (i + 1) hq' hd)

theorem release_not_mem_frameLoop (env : Env) (rot : Bool) (total : Nat) (ps : List String) :
    ∀ i : Nat, Event.release ∉ frameLoop env rot total i ps := by
  induction ps with
  | nil => intro i; simp [frameLoop]
  | cons p rest ih =>
    intro i
    cases h : env.decode p with
    | none => simp [frameLoop, h, ih (i + 1)]
    | some img =>
      by_cases hc : (i + 1) % 10 = 0 ∨ i + 1 = total <;>
        simp [frameLoop, h, hc, ih (i + 1)]

theorem writtenFrames_nil : writtenFrames [] = [] := rfl

theorem progressEvents_nil : progressEvents [] = [] := rfl

theorem progressEvents_frameLoop (env : Env) (rot : Bool) (total : Nat) (ps : List String) :
    ∀ i : Nat,
      progressEvents (frameLoop env rot total i ps) =
        (ps.enumFrom i).filterMap fun x =>
          if (env.decode x.2).isSome ∧ ((x.1 + 1) % 10 = 0 ∨ x.1 + 1 = total) then
            some (Event.progress (x.1 + 1) total)
          else none := by
  induction ps with
  | nil => intro i; rfl
  | cons p rest ih =>
    intro i
    cases h : env.decode p with
    | none =>
      simp [frameLoop, h, List.enumFrom, ih (i + 1), List.filterMap_cons,
        progressEvents_warn_cons]
    | some img =>
      by_cases hc : (i + 1) % 10 = 0 ∨ i + 1 = total
      · simp [frameLoop, h, if_pos hc, hc, List.enumFrom, ih (i + 1), List.filterMap_cons,
          progressEvents_write_cons, progressEvents_progress_cons]
      · simp [frameLoop, h, if_neg hc, hc, List.enumFrom, ih (i + 1), List.filterMap_cons,
          progressEvents_write_cons]

/-! ### Characterization of the three control-flow shapes of a run -/

theorem create_no_images (env : Env) (folder out pat : String) (fps : Nat) (rot : Bool)
    (h : env.glob (osPathJoin folder pat) = []) :
    create_video_from_images env folder out fps pat rot =
      ⟨[Event.print ("No images found in " ++ folder ++ " matching pattern " ++ pat)],
        none⟩ := by
  simp [create_video_from_images, h]

theorem create_first_fail (env : Env) (folder out pat : String) (fps : Nat) (rot : Bool)
    (h1 : env.glob (osPathJoin folder pat) ≠ [])
    (h2 : env.decode ((natsorted (env.glob (osPathJoin folder pat))).headD "") = none) :
    create_video_from_images env folder out fps pat rot =
      ⟨[], some (Fault.decodeFirstFailed
        ((natsorted (env.glob (osPathJoin folder pat))).headD ""))⟩ := by
  simp only [create_video_from_images]
  rw [if_neg h1, h2]

theorem create_success (env : Env) (folder out pat : String) (fps : Nat) (rot : Bool)
    (h1 : env.glob (osPathJoin folder pat) ≠ []) (img0 : Image)
    (h2 : env.decode ((natsorted (env.glob (osPathJoin folder pat))).headD "") = some img0) :
    create_video_from_images env folder out fps pat rot =
      ⟨Event.createWriter out "mp4v" fps
          (if rot then cvRotate90CCW img0 else img0).width
          (if rot then cvRotate90CCW img0 else img0).height ::
        frameLoop env rot (natsorted (env.glob (osPathJoin folder pat))).length 0
          (natsorted (env.glob (osPathJoin folder pat))) ++
        [Event.release, Event.print ("Video saved to " ++ out)], none⟩ := by
  simp only [create_video_from_images]
  rw [if_neg h1, h2]

theorem writtenFrames_create (env : Env) (folder out pat : String) (fps : Nat) (rot : Bool)
    (h1 : env.glob (osPathJoin folder pat) ≠ []) (img0 : Image)
    (h2 : env.decode ((natsorted (env.glob (osPathJoin folder pat))).headD "") = some img0) :
    writtenFrames (create_video_from_images env folder out fps pat rot).events =
      (natsorted (env.glob (osPathJoin folder pat))).filterMap fun p =>
        (env.decode p).map fun img => if rot then cvRotate90CCW img else img := by
  rw [create_success env folder out pat fps rot h1 img0 h2]
  simp only [writtenFrames_createWriter_cons, writtenFrames_append,
    writtenFrames_frameLoop, writtenFrames_release_cons, writtenFrames_print_cons,
    writtenFrames_nil, List.append_nil]

theorem progressEvents_create (env : Env) (folder out pat : String) (fps : Nat) (rot : Bool)
    (h1 : env.glob (osPathJoin folder pat) ≠ []) (img0 : Image)
    (h2 : env.decode ((natsorted (env.glob (osPathJoin folder pat))).headD "") = some img0) :
    progressEvents (create_video_from_images env folder out fps pat rot).events =
      ((natsorted (env.glob (osPathJoin folder pat))).enumFrom 0).filterMap fun x =>
        if (env.decode x.2).isSome ∧
            ((x.1 + 1) % 10 = 0 ∨
              x.1 + 1 = (natsorted (env.glob (osPathJoin folder pat))).length) then
          some (Event.progress (x.1 + 1)
            (natsorted (env.glob (osPathJoin folder pat))).length)
        else none := by
  rw [create_success env folder out pat fps rot h1 img0 h2]
  simp only [progressEvents_createWriter_cons, progressEvents_append,
    progressEvents_frameLoop, progressEvents_release_cons, progressEvents_print_cons,
    progressEvents_nil, List.append_nil]

/-! ### Concrete environments used as witnesses and counterexamples -/

/-- A 1-by-2 raster. -/
def dImg1 : Image := ⟨[[(10, 0, 0), (11, 0, 0)]]⟩

/-- A second 1-by-2 raster, distinct from `dImg1`. -/
def dImg2 : Image := ⟨[[(20, 0, 0), (21, 0, 0)]]⟩

/-- A third 1-by-2 raster. -/
def dImg10 : Image := ⟨[[(30, 0, 0), (31, 0, 0)]]⟩

/-- A 1-by-1 raster, of a different size than the others. -/
def imgSq : Image := ⟨[[(5, 5, 5)]]⟩

/-- A folder `imgs` holding `img1.png`, `img2.png`, `img10.png`, all readable,
listed by the glob in non-natural order. -/
def envA : Env :=
  ⟨fun q => if q = "imgs/*.png" then ["imgs/img10.png", "imgs/img1.png", "imgs/img2.png"] else [],
   fun p =>
     if p = "imgs/img1.png" then some dImg1
     else if p = "imgs/img2.png" then some dImg2
     else if p = "imgs/img10.png" then some dImg10
     else none⟩

/-- A folder `e` where the naturally first file `b1.png` is unreadable and
`b2.png` is readable. -/
def envB : Env :=
  ⟨fun q => if q = "e/*.png" then ["e/b1.png", "e/b2.png"] else [],
   fun p => if p = "e/b2.png" then some dImg1 else none⟩

/-- A folder `g` where `c1.png` is readable and the naturally last file
`c2.png` is unreadable. -/
def envC : Env :=
  ⟨fun q => if q = "g/*.png" then ["g/c2.png", "g/c1.png"] else [],
   fun p => if p = "g/c1.png" then some dImg1 else none⟩

/-- A folder `f` holding a single unreadable file. -/
def envD : Env :=
  ⟨fun q => if q = "f/*.png" then ["f/x.png"] else [],
   fun _ => none⟩

/-- A folder `d` where one file matches `*.png` and nothing matches `*`. -/
def envE : Env :=
  ⟨fun q => if q = "d/*.png" then ["d/a.png"] else [],
   fun p => if p = "d/a.png" then some dImg1 else none⟩

/-- A folder `m` holding two readable images of different sizes. -/
def envF : Env :=
  ⟨fun q => if q = "m/*.png" then ["m/f1.png", "m/f2.png"] else [],
   fun p =>
     if p = "m/f1.png" then some dImg1
     else if p = "m/f2.png" then some imgSq
     else none⟩

/-- A filesystem with no matching files anywhere. -/
def envEmpty : Env := ⟨fun _ => [], fun _ => none⟩

/-! ### Claims -/

/-- C2: when zero files match, the run emits exactly the "no images found"
message, does not fault, and creates no video writer (so no output file);
and this is the only early-exit path: with at least one match the run either
faults or does create the writer. -/
theorem C2_no_images_early_exit (env : Env) (folder out pat : String) (fps : Nat) (rot : Bool) :
    (env.glob (osPathJoin folder pat) = [] →
      (create_video_from_images env folder out fps pat rot).events =
        [Event.print ("No images found in " ++ folder ++ " matching pattern " ++ pat)] ∧
      (create_video_from_images env folder out fps pat rot).fault = none ∧
      ∀ p c f w h, Event.createWriter p c f w h ∉
        (create_video_from_images env folder out fps pat rot).events) ∧
    (env.glob (osPathJoin folder pat) ≠ [] →
      (create_video_from_images env folder out fps pat rot).fault ≠ none ∨
      ∃ w h, Event.createWriter out "mp4v" fps w h ∈
        (create_video_from_images env folder out fps pat rot).events) := by
  constructor
  · intro h
    rw [create_no_images env folder out pat fps rot h]
    refine ⟨rfl, rfl, ?_⟩
    intro p c f w h'
    simp
  · intro h1
    cases h2 : env.decode ((natsorted (env.glob (osPathJoin folder pat))).headD "") with
    | none =>
      left
      rw [create_first_fail env folder out pat fps rot h1 h2]
      simp
    | some img0 =>
      right
      refine ⟨(if rot then cvRotate90CCW img0 else img0).width,
        (if rot then cvRotate90CCW img0 else img0).height, ?_⟩
      rw [create_success env folder out pat fps rot h1 img0 h2]
      exact List.mem_cons_self _ _

/-- Witness for C2: a concrete empty folder produces exactly the message, and
a concrete populated folder does create the writer. -/
theorem C2_witness :
    (create_video_from_images envEmpty "d" "o.mp4").events =
      [Event.print ("No images found in " ++ "d" ++ " matching pattern " ++ "*.png")] ∧
    ∃ w h, Event.createWriter "o.mp4" "mp4v" 30 w h ∈
      (create_video_from_images envA "imgs" "o.mp4").events :=
  ⟨((C2_no_images_early_exit envEmpty "d" "o.mp4" "*.png" 30 true).1 rfl).1,
    ((C2_no_images_early_exit envA "imgs" "o.mp4" "*.png" 30 true).2 (by decide)).resolve_left
      (by decide)⟩

/-- C5 counterexample: the operation called without an explicit pattern does
not behave like the pattern "*": on a folder whose only file matches `*.png`
under the model filesystem `envE`, the two calls differ, so the default
pattern is not "*". -/
theorem C5_counterexample :
    create_video_from_images envE "d" "o.mp4" ≠
      create_video_from_images envE "d" "o.mp4" 30 "*" true := by
  decide

/-- C5 amended: when the conversion operation is called without an explicit
pattern argument, the file-matching glob pattern defaults to "*.png" (and the
frame rate to 30, rotation to enabled). -/
theorem C5_default_pattern (env : Env) (folder out : String) :
    create_video_from_images env folder out =
      create_video_from_images env folder out 30 "*.png" true := rfl

/-- C8: the conversion is deterministic: two runs over filesystems with the
same matches and the same decode results (in particular two runs over an
unchanged folder) produce the same trace, hence the same frame count and the
same per-frame pixel content. -/
theorem C8_determinism (env1 env2 : Env) (folder out pat : String) (fps : Nat) (rot : Bool)
    (hg : env1.glob = env2.glob) (hd : env1.decode = env2.decode) :
    create_video_from_images env1 folder out fps pat rot =
      create_video_from_images env2 folder out fps pat rot ∧
    (writtenFrames (create_video_from_images env1 folder out fps pat rot).events).length =
      (writtenFrames (create_video_from_images env2 folder out fps pat rot).events).length ∧
    writtenFrames (create_video_from_images env1 folder out fps pat rot).events =
      writtenFrames (create_video_from_images env2 folder out fps pat rot).events := by
  obtain ⟨g1, d1⟩ := env1
  obtain ⟨g2, d2⟩ := env2
  cases hg
  cases hd
  exact ⟨rfl, rfl, rfl⟩

/-- Witness for C8: the two hypotheses hold for two runs over the unchanged
concrete folder `imgs`, and the traces agree. -/
theorem C8_witness :
    create_video_from_images envA "imgs" "o.mp4" 30 "*.png" true =
      create_video_from_images envA "imgs" "o.mp4" 30 "*.png" true :=
  (C8_determinism envA envA "imgs" "o.mp4" "*.png" 30 true rfl rfl).1

/-- C1 counterexample: in the run over folder `e` at least one file matches,
yet the number of frames written (zero, because the naturally first file
fails to decode and the run faults) differs from the number of matched files
that decode successfully (one). -/
theorem C1_counterexample :
    ¬ ((writtenFrames (create_video_from_images envB "e" "o.mp4").events).length =
        (natsorted (envB.glob (osPathJoin "e" "*.png"))).countP
          fun p => (envB.decode p).isSome) := by
  decide

/-- C1 amended: provided the naturally first matched file decodes
successfully, the number of frames written equals the number of matched files
that decode successfully, and for every matched file that fails to decode a
warning naming that file is emitted while processing continues (no
placeholder frame is substituted). -/
theorem C1_frame_count_and_warnings (env : Env) (folder out pat : String) (fps : Nat)
    (rot : Bool) (h1 : env.glob (osPathJoin folder pat) ≠ []) (img0 : Image)
    (h2 : env.decode ((natsorted (env.glob (osPathJoin folder pat))).headD "") = some img0) :
    (writtenFrames (create_video_from_images env folder out fps pat rot).events).length =
      (natsorted (env.glob (osPathJoin folder pat))).countP
        (fun p => (env.decode p).isSome) ∧
    ∀ p ∈ natsorted (env.glob (osPathJoin folder pat)), env.decode p = none →
      Event.warn p ∈ (create_video_from_images env folder out fps pat rot).events := by
  constructor
  · rw [writtenFrames_create env folder out pat fps rot h1 img0 h2,
      length_filterMap_eq_countP]
    congr 1
    funext p
    cases env.decode p <;> rfl
  · intro p hp hd
    rw [create_success env folder out pat fps rot h1 img0 h2]
    refine List.mem_cons_of_mem _ (List.mem_append_left _ ?_)
    exact warn_mem_frameLoop env rot _ p _ 0 hp hd

/-- Witness for C1 amended: on folder `g` (first file readable, second not)
one frame is written, matching the count of successful decodes, and the
warning names the unreadable file. -/
theorem C1_witness :
    (writtenFrames (create_video_from_images envC "g" "o.mp4").events).length =
      (natsorted (envC.glob (osPathJoin "g" "*.png"))).countP
        (fun p => (envC.decode p).isSome) ∧
    Event.warn "g/c2.png" ∈ (create_video_from_images envC "g" "o.mp4").events :=
  ⟨(C1_frame_count_and_warnings envC "g" "o.mp4" "*.png" 30 true (by decide) dImg1
      (by decide)).1,
    (C1_frame_count_and_warnings envC "g" "o.mp4" "*.png" 30 true (by decide) dImg1
      (by decide)).2 "g/c2.png" (by decide) (by decide)⟩

/-- C3: matched files are processed in natural-sort order: when the first
sorted file decodes, the frames written are exactly the decode results of the
naturally sorted matched list in that order; and natural order places
img1.png, img2.png, img10.png numerically (img10 last), not lexically. -/
theorem C3_natural_order :
    (∀ (env : Env) (folder out pat : String) (fps : Nat) (rot : Bool) (img0 : Image),
      env.glob (osPathJoin folder pat) ≠ [] →
      env.decode ((natsorted (env.glob (osPathJoin folder pat))).headD "") = some img0 →
      writtenFrames (create_video_from_images env folder out fps pat rot).events =
        (natsorted (env.glob (osPathJoin folder pat))).filterMap fun p =>
          (env.decode p).map fun img => if rot then cvRotate90CCW img else img) ∧
    natsorted ["img1.png", "img10.png", "img2.png"] =
      ["img1.png", "img2.png", "img10.png"] ∧
    natsorted ["imgs/img10.png", "imgs/img1.png", "imgs/img2.png"] =
      ["imgs/img1.png", "imgs/img2.png", "imgs/img10.png"] := by
  refine ⟨?_, by decide, by decide⟩
  intro env folder out pat fps rot img0 h1 h2
  exact writtenFrames_create env folder out pat fps rot h1 img0 h2

/-- Witness for C3: on the concrete folder `imgs` (rotation disabled), the
frames come out in the order img1, img2, img10. -/
theorem C3_witness :
    writtenFrames (create_video_from_images envA "imgs" "o.mp4" 30 "*.png" false).events =
      [dImg1, dImg2, dImg10] :=
  (C3_natural_order.1 envA "imgs" "o.mp4" "*.png" 30 false dImg1 (by decide)
    (by decide)).trans (by decide)

/-- C9 counterexample: a run with one matched file whose decode fails faults
before the writer exists, so although a file matched, the stream is never
finalized: no release event occurs. -/
theorem C9_counterexample :
    envD.glob (osPathJoin "f" "*.png") ≠ [] ∧
    Event.release ∉ (create_video_from_images envD "f" "o.mp4").events := by
  decide

/-- C9 amended: provided the naturally first matched file decodes, the trace
is a prefix without release, then one release, then only the completion
message: the writer is released exactly once, the completion message is
emitted after finalization, and no frame write occurs after the release. -/
theorem C9_finalization (env : Env) (folder out pat : String) (fps : Nat) (rot : Bool)
    (h1 : env.glob (osPathJoin folder pat) ≠ []) (img0 : Image)
    (h2 : env.decode ((natsorted (env.glob (osPathJoin folder pat))).headD "") = some img0) :
    ∃ pre, (create_video_from_images env folder out fps pat rot).events =
        pre ++ [Event.release, Event.print ("Video saved to " ++ out)] ∧
      Event.release ∉ pre := by
  rw [create_success env folder out pat fps rot h1 img0 h2]
  refine ⟨Event.createWriter out "mp4v" fps
      (if rot then cvRotate90CCW img0 else img0).width
      (if rot then cvRotate90CCW img0 else img0).height ::
      frameLoop env rot (natsorted (env.glob (osPathJoin folder pat))).length 0
        (natsorted (env.glob (osPathJoin folder pat))), ?_, ?_⟩
  · simp
  · intro hmem
    rcases List.mem_cons.mp hmem with he | he
    · cases he
    · exact release_not_mem_frameLoop env rot _ _ 0 he

/-- Witness for C9 amended: the trace of the run over the concrete folder
`imgs` has this release-then-message shape. -/
theorem C9_witness :
    ∃ pre, (create_video_from_images envA "imgs" "o.mp4").events =
        pre ++ [Event.release, Event.print ("Video saved to " ++ "o.mp4")] ∧
      Event.release ∉ pre :=
  C9_finalization envA "imgs" "o.mp4" "*.png" 30 true (by decide) dImg1 (by decide)

/-- C10 counterexample: with two matched files whose naturally last one fails
to decode, no progress message is printed at all — in particular no final
progress message at the last matched file (position 2 = total). -/
theorem C10_counterexample :
    (natsorted (envC.glob (osPathJoin "g" "*.png"))).length = 2 ∧
    progressEvents (create_video_from_images envC "g" "o.mp4").events = [] := by
  decide

/-- C10 amended: provided the naturally first matched file decodes, a
progress message reporting (i+1)/total is printed exactly for those matched
files that decode successfully and whose 1-based position i+1 is a multiple
of 10 or equals the total, where position and total count all matched files,
including those skipped for decode failure. -/
theorem C10_progress (env : Env) (folder out pat : String) (fps : Nat) (rot : Bool)
    (h1 : env.glob (osPathJoin folder pat) ≠ []) (img0 : Image)
    (h2 : env.decode ((natsorted (env.glob (osPathJoin folder pat))).headD "") = some img0) :
    progressEvents (create_video_from_images env folder out fps pat rot).events =
      ((natsorted (env.glob (osPathJoin folder pat))).enumFrom 0).filterMap fun x =>
        if (env.decode x.2).isSome ∧
            ((x.1 + 1) % 10 = 0 ∨
              x.1 + 1 = (natsorted (env.glob (osPathJoin folder pat))).length) then
          some (Event.progress (x.1 + 1)
            (natsorted (env.glob (osPathJoin folder pat))).length)
        else none :=
  progressEvents_create env folder out pat fps rot h1 img0 h2

/-- Witness for C10 amended: on the three-file folder `imgs` the only
progress message is printed at the last position, 3/3. -/
theorem C10_witness :
    progressEvents (create_video_from_images envA "imgs" "o.mp4").events =
      [Event.progress 3 3] :=
  (C10_progress envA "imgs" "o.mp4" "*.png" 30 true (by decide) dImg1 (by decide)).trans
    (by decide)

/-- Every raster the model decoder of `envA` returns has positive width. -/
theorem envA_decode_pos_width : ∀ p img, envA.decode p = some img → 0 < img.width := by
  intro p img h
  simp only [envA] at h
  split_ifs at h
  · injection h with h
    subst h
    decide
  · injection h with h
    subst h
    decide
  · injection h with h
    subst h
    decide

/-- C4: every written frame comes from a matched file whose decode succeeded;
with rotation enabled the frame is the 90-degree counterclockwise rotation of
the decoded image and its width and height are the decoded image's height and
width (axes swapped); with rotation disabled the frame is the decoded image
unchanged, dimensions included.  Decoded rasters are assumed to have positive
width, as every raster the decoder produces does. -/
theorem C4_rotation (env : Env) (folder out pat : String) (fps : Nat) (rot : Bool)
    (hw : ∀ p img, env.decode p = some img → 0 < img.width) :
    ∀ frame ∈ writtenFrames (create_video_from_images env folder out fps pat rot).events,
      ∃ p img, p ∈ env.glob (osPathJoin folder pat) ∧ env.decode p = some img ∧
        frame = (if rot then cvRotate90CCW img else img) ∧
        (rot = true → frame.width = img.height ∧ frame.height = img.width) ∧
        (rot = false → frame.width = img.width ∧ frame.height = img.height) := by
  intro frame hf
  by_cases h1 : env.glob (osPathJoin folder pat) = []
  · rw [create_no_images env folder out pat fps rot h1] at hf
    cases hf
  · cases h2 : env.decode ((natsorted (env.glob (osPathJoin folder pat))).headD "") with
    | none =>
      rw [create_first_fail env folder out pat fps rot h1 h2] at hf
      cases hf
    | some img0 =>
      rw [writtenFrames_create env folder out pat fps rot h1 img0 h2] at hf
      obtain ⟨p, hp, himg⟩ := List.mem_filterMap.mp hf
      cases hd : env.decode p with
      | none =>
        rw [hd] at himg
        cases himg
      | some img =>
        rw [hd] at himg
        obtain rfl : (if rot then cvRotate90CCW img else img) = frame := by
          simpa using himg
        refine ⟨p, img, mem_natsorted.mp hp, hd, rfl, ?_, ?_⟩
        · intro hrot
          subst hrot
          simp only [if_pos rfl]
          exact ⟨Image.cvRotate90CCW_width img (hw p img hd),
            Image.cvRotate90CCW_height img⟩
        · intro hrot
          subst hrot
          simp

/-- Witness for C4: the first written frame of the run over `imgs` with
rotation enabled is the rotation of a decoded image, with axes swapped. -/
theorem C4_witness :
    ∃ p img, p ∈ envA.glob (osPathJoin "imgs" "*.png") ∧ envA.decode p = some img ∧
      cvRotate90CCW dImg1 = (if true then cvRotate90CCW img else img) ∧
      (true = true → (cvRotate90CCW dImg1).width = img.height ∧
        (cvRotate90CCW dImg1).height = img.width) ∧
      (true = false → (cvRotate90CCW dImg1).width = img.width ∧
        (cvRotate90CCW dImg1).height = img.height) :=
  C4_rotation envA "imgs" "o.mp4" "*.png" 30 true envA_decode_pos_width
    (cvRotate90CCW dImg1) (by decide)

/-- C6: with at least one match, if the naturally first matched file decodes
then dimension extraction does not fault and the writer is created first,
with the post-rotation dimensions of that first image; if the first file
fails to decode, the run faults before any event — no frame write, no writer
creation. -/
theorem C6_first_frame (env : Env) (folder out pat : String) (fps : Nat) (rot : Bool)
    (h1 : env.glob (osPathJoin folder pat) ≠ []) :
    (∀ img0,
      env.decode ((natsorted (env.glob (osPathJoin folder pat))).headD "") = some img0 →
      (create_video_from_images env folder out fps pat rot).fault = none ∧
      ∃ rest, (create_video_from_images env folder out fps pat rot).events =
        Event.createWriter out "mp4v" fps
          (if rot then cvRotate90CCW img0 else img0).width
          (if rot then cvRotate90CCW img0 else img0).height :: rest) ∧
    (env.decode ((natsorted (env.glob (osPathJoin folder pat))).headD "") = none →
      (create_video_from_images env folder out fps pat rot).fault =
        some (Fault.decodeFirstFailed
          ((natsorted (env.glob (osPathJoin folder pat))).headD "")) ∧
      (create_video_from_images env folder out fps pat rot).events = []) := by
  constructor
  · intro img0 h2
    rw [create_success env folder out pat fps rot h1 img0 h2]
    exact ⟨rfl, _, rfl⟩
  · intro h2
    rw [create_first_fail env folder out pat fps rot h1 h2]
    exact ⟨rfl, rfl⟩

/-- Witness for C6: the populated folder `imgs` yields a fault-free run whose
first event creates the writer with the rotated first image's dimensions; the
folder `f` with one unreadable file yields a fault with an empty trace. -/
theorem C6_witness :
    ((create_video_from_images envA "imgs" "o.mp4").fault = none ∧
      ∃ rest, (create_video_from_images envA "imgs" "o.mp4").events =
        Event.createWriter "o.mp4" "mp4v" 30
          (if true then cvRotate90CCW dImg1 else dImg1).width
          (if true then cvRotate90CCW dImg1 else dImg1).height :: rest) ∧
    ((create_video_from_images envD "f" "o.mp4").fault =
        some (Fault.decodeFirstFailed
          ((natsorted (envD.glob (osPathJoin "f" "*.png"))).headD "")) ∧
      (create_video_from_images envD "f" "o.mp4").events = []) :=
  ⟨(C6_first_frame envA "imgs" "o.mp4" "*.png" 30 true (by decide)).1 dImg1 (by decide),
    (C6_first_frame envD "f" "o.mp4" "*.png" 30 true (by decide)).2 (by decide)⟩

/-- C7 counterexample: with two readable images of different sizes (rotation
disabled), both are written without any dimension check, so the written
frames do not all share one width and height. -/
theorem C7_counterexample :
    ¬ (∀ f ∈ writtenFrames
          (create_video_from_images envF "m" "o.mp4" 30 "*.png" false).events,
        ∀ g ∈ writtenFrames
          (create_video_from_images envF "m" "o.mp4" 30 "*.png" false).events,
        f.width = g.width ∧ f.height = g.height) := by
  decide

/-- All rasters decoded by `envA`, once rotated, share the rotated first
image's dimensions. -/
theorem envA_uniform_dims :
    ∀ p ∈ natsorted (envA.glob (osPathJoin "imgs" "*.png")), ∀ img,
      envA.decode p = some img →
        (if true then cvRotate90CCW img else img).width =
          (if true then cvRotate90CCW dImg1 else dImg1).width ∧
        (if true then cvRotate90CCW img else img).height =
          (if true then cvRotate90CCW dImg1 else dImg1).height := by
  intro p _ img h
  simp only [envA] at h
  split_ifs at h
  · injection h with h
    subst h
    decide
  · injection h with h
    subst h
    decide
  · injection h with h
    subst h
    decide

/-- C7 amended: the stream's dimensions are fixed once at writer creation
from the first processed (and possibly rotated) image, and the system
performs no per-frame dimension validation; hence whenever all decoded (and
possibly rotated) matched images share the first one's dimensions, every
written frame has exactly the writer's declared width and height. -/
theorem C7_dimension_consistency (env : Env) (folder out pat : String) (fps : Nat)
    (rot : Bool) (h1 : env.glob (osPathJoin folder pat) ≠ []) (img0 : Image)
    (h2 : env.decode ((natsorted (env.glob (osPathJoin folder pat))).headD "") = some img0)
    (hdim : ∀ p ∈ natsorted (env.glob (osPathJoin folder pat)), ∀ img,
      env.decode p = some img →
        (if rot then cvRotate90CCW img else img).width =
          (if rot then cvRotate90CCW img0 else img0).width ∧
        (if rot then cvRotate90CCW img else img).height =
          (if rot then cvRotate90CCW img0 else img0).height) :
    (∃ rest, (create_video_from_images env folder out fps pat rot).events =
      Event.createWriter out "mp4v" fps
        (if rot then cvRotate90CCW img0 else img0).width
        (if rot then cvRotate90CCW img0 else img0).height :: rest) ∧
    ∀ frame ∈ writtenFrames (create_video_from_images env folder out fps pat rot).events,
      frame.width = (if rot then cvRotate90CCW img0 else img0).width ∧
      frame.height = (if rot then cvRotate90CCW img0 else img0).height := by
  constructor
  · rw [create_success env folder out pat fps rot h1 img0 h2]
    exact ⟨_, rfl⟩
  · intro frame hf
    rw [writtenFrames_create env folder out pat fps rot h1 img0 h2] at hf
    obtain ⟨p, hp, himg⟩ := List.mem_filterMap.mp hf
    cases hd : env.decode p with
    | none =>
      rw [hd] at himg
      cases himg
    | some img =>
      rw [hd] at himg
      obtain rfl : (if rot then cvRotate90CCW img else img) = frame := by
        simpa using himg
      exact hdim p hp img hd

/-- Witness for C7 amended: over the uniform folder `imgs` the writer is
created with the rotated first image's dimensions and the first written frame
matches them. -/
theorem C7_witness :
    (∃ rest, (create_video_from_images envA "imgs" "o.mp4").events =
      Event.createWriter "o.mp4" "mp4v" 30
        (if true then cvRotate90CCW dImg1 else dImg1).width
        (if true then cvRotate90CCW dImg1 else dImg1).height :: rest) ∧
    ((cvRotate90CCW dImg1).width = (if true then cvRotate90CCW dImg1 else dImg1).width ∧
      (cvRotate90CCW dImg1).height =
        (if true then cvRotate90CCW dImg1 else dImg1).height) :=
  ⟨(C7_dimension_consistency envA "imgs" "o.mp4" "*.png" 30 true (by decide) dImg1
      (by decide) envA_uniform_dims).1,
    (C7_dimension_consistency envA "imgs" "o.mp4" "*.png" 30 true (by decide) dImg1
      (by decide) envA_uniform_dims).2 (cvRotate90CCW dImg1) (by decide)⟩

end VideoConverter
